import Mathlib

/-!
Verification of the DNS zone-hierarchy resolution engine (dnszones).

The TypeScript sources under `src/utils/` are shallowly embedded as pure Lean
functions.  Asynchronous DoH queries are modelled by a deterministic
environment `DnsEnv : String → String → Except String DnsResponse`, mapping a
(domain, record-type) pair to either a decoded JSON response or a thrown
error (rate-limit rejection, timeout, transport failure).  This mirrors how
the repository's own vitest suites mock `queryDns` with a deterministic
`domain:type → response` table.  Thrown JavaScript exceptions are modelled by
`Except.error`; `try`/`catch` blocks become `match` on the `Except` value,
with mutations that happened before a throw threaded explicitly.
-/

namespace DnsZones

/-! ### String helpers

JavaScript string primitives used by the source, re-implemented with
structural recursion so that every definition reduces definitionally. -/

/-- ASCII lower-casing of a character, as performed by
`String.prototype.toLowerCase` on the ASCII domain names handled here. -/
def charToLower (c : Char) : Char :=
  if 'A' ≤ c ∧ c ≤ 'Z' then Char.ofNat (c.toNat + 32) else c

/-- `s.toLowerCase()` on ASCII strings. -/
def toLowerS (s : String) : String :=
  String.mk (s.data.map charToLower)

/-- `s.replace(/\.$/, '')`: drop a single trailing dot, if present. -/
def stripTrailingDot (s : String) : String :=
  if s.data.getLast? = some '.' then String.mk s.data.dropLast else s

/-- `chars.split('.')` on a character list (JS `String.prototype.split`). -/
def splitDot : List Char → List (List Char)
  | [] => [[]]
  | c :: cs =>
    if c = '.' then [] :: splitDot cs
    else
      match splitDot cs with
      | r :: rs => (c :: r) :: rs
      | [] => [[c]]

/-- `s.split('.')`. -/
def splitOnDot (s : String) : List String :=
  (splitDot s.data).map String.mk

/-- `parts.join('.')`. -/
def joinDots : List String → String
  | [] => ""
  | [s] => s
  | s :: rest => s ++ "." ++ joinDots rest

/-- Lexicographic `≤` on strings by code point, the order used by
`Array.prototype.sort()` on the ASCII nameserver names compared here. -/
def charListLE : List Char → List Char → Bool
  | [], _ => true
  | _ :: _, [] => false
  | a :: as, b :: bs => if a < b then true else if b < a then false else charListLE as bs

/-- String comparison used for sorting nameserver lists. -/
def strLE (a b : String) : Bool :=
  charListLE a.data b.data

/-- Insert into a sorted list (helper for `sortStrings`). -/
def insertSorted (s : String) : List String → List String
  | [] => [s]
  | t :: ts => if strLE s t then s :: t :: ts else t :: insertSorted s ts

/-- `.sort()`: lexicographically sort a string list. -/
def sortStrings : List String → List String
  | [] => []
  | s :: ss => insertSorted s (sortStrings ss)

/-! ### DNS data model (`src/types/dns.ts`) -/

/-- One DoH answer record (`DnsRecord` in `types/dns.ts`). -/
structure DnsRecord where
  name : String
  type : Nat
  TTL : Nat
  data : String
deriving DecidableEq, Repr

/-- A decoded DoH JSON response (`DnsResponse` in `types/dns.ts`); the flag
fields (`TC`, `RD`, ...) and `Question` are never read by the engine and are
omitted.  `Answer`/`Authority` are optional sections. -/
structure DnsResponse where
  Status : Nat
  Answer : Option (List DnsRecord) := none
  Authority : Option (List DnsRecord) := none
deriving DecidableEq, Repr

/-- Deterministic model of `queryDns`: a (domain, record-type string) pair is
mapped to the decoded response, or to a thrown error (rate limiting, timeout,
HTTP failure). -/
def DnsEnv : Type := String → String → Except String DnsResponse

/-! ### `src/utils/dns.ts`: zone lookups -/

/-- `getNameservers`: NS query; lowercased, sorted `data` fields of the
Answer section, `[]` when the Answer section is missing or empty. -/
def getNameservers (env : DnsEnv) (domain : String) : Except String (List String) :=
  match env domain "NS" with
  | .error e => .error e
  | .ok nsResponse =>
    match nsResponse.Answer with
    | some ans =>
      if ans.length > 0 then
        .ok (sortStrings (ans.map (fun record => toLowerS record.data)))
      else
        .ok []
    | none => .ok []

/-- `getCnameInfo`: CNAME query; `(true, lowercased target)` when the Answer
section holds a type-5 record, `(false, none)` otherwise. -/
def getCnameInfo (env : DnsEnv) (domain : String) : Except String (Bool × Option String) :=
  match env domain "CNAME" with
  | .error e => .error e
  | .ok response =>
    match response.Answer with
    | some ans =>
      if ans.length > 0 then
        match ans.find? (fun record => record.type == 5) with
        | some cnameRecord => .ok (true, some (toLowerS cnameRecord.data))
        | none => .ok (false, none)
      else
        .ok (false, none)
    | none => .ok (false, none)

/-- The `else if (soaResponse.Authority ...)` arm of `getZoneInfo` (lines
96–114 of `dns.ts`): determine the zone name from the Authority section when
the Answer section is missing or empty. -/
def zoneNameFromAuthority (domain cleanDomain : String)
    (authority : Option (List DnsRecord)) : Except String String :=
  match authority with
  | some auth =>
    if auth.length > 0 then
      match auth.find? (fun record => record.type == 6) with
      | some soaRecord =>
        let cleanZoneName := stripTrailingDot (toLowerS soaRecord.name)
        if cleanZoneName ≠ cleanDomain then
          Except.error ("Domain " ++ domain ++ " does not exist")
        else
          Except.ok cleanZoneName
      | none => Except.ok cleanDomain
    else Except.ok cleanDomain
  | none => Except.ok cleanDomain

/-- Zone-name determination of `getZoneInfo` (lines 62–114 of `dns.ts`). -/
def zoneNameOf (domain : String) (soaResponse : DnsResponse) : Except String String :=
  let cleanDomain := stripTrailingDot (toLowerS domain)
  match soaResponse.Answer with
  | some ans =>
    if ans.length > 0 then
      match ans.find? (fun record => record.type == 6) with
      | some soaRecord =>
        let zoneName := stripTrailingDot (toLowerS soaRecord.name)
        if zoneName ≠ cleanDomain then
          Except.error ("Domain " ++ domain ++ " does not exist")
        else
          Except.ok zoneName
      | none =>
        match soaResponse.Authority with
        | some auth =>
          if auth.length > 0 then
            match auth.find? (fun record => record.type == 6) with
            | some authSoaRecord =>
              let cleanAuthZone := stripTrailingDot (toLowerS authSoaRecord.name)
              if cleanAuthZone ≠ cleanDomain then
                Except.error ("Domain " ++ domain ++ " is not a zone, belongs to " ++ cleanAuthZone)
              else
                Except.ok cleanAuthZone
            | none => Except.error ("Domain " ++ domain ++ " does not have SOA record")
          else Except.error ("Domain " ++ domain ++ " does not have SOA record")
        | none => Except.error ("Domain " ++ domain ++ " does not have SOA record")
    else
      zoneNameFromAuthority domain cleanDomain soaResponse.Authority
  | none => zoneNameFromAuthority domain cleanDomain soaResponse.Authority

/-- `getZoneInfo`: SOA query, NXDOMAIN/SERVFAIL checks, zone-name
determination, then the zone's NS set.  The `exists: true` field of the TS
return value is constant and omitted. -/
def getZoneInfo (env : DnsEnv) (domain : String) : Except String (String × List String) :=
  match env domain "SOA" with
  | .error e => .error e
  | .ok soaResponse =>
    if soaResponse.Status == 3 then
      Except.error ("Domain " ++ domain ++ " does not exist")
    else if soaResponse.Status == 2 && soaResponse.Answer.isNone && soaResponse.Authority.isNone then
      Except.error ("DNS server failure querying " ++ domain)
    else
      match zoneNameOf domain soaResponse with
      | .error e => .error e
      | .ok zoneName =>
        match getNameservers env zoneName with
        | .error e => .error e
        | .ok nameservers => .ok (zoneName, nameservers)

/-- `isZoneDelegated`: delegated iff both NS sets are non-empty and share no
common nameserver. -/
def isZoneDelegated (env : DnsEnv) (domain parentZone : String) : Except String Bool :=
  match getNameservers env parentZone with
  | .error e => .error e
  | .ok parentNS =>
    match getNameservers env domain with
    | .error e => .error e
    | .ok domainNS =>
      .ok (decide (domainNS.length > 0) && decide (parentNS.length > 0) &&
           !(parentNS.any (fun ns => domainNS.contains ns)))

/-! ### `src/utils/dns.ts`: the boundary walk -/

/-- `ZoneHierarchyData` (dns.ts lines 7–16). -/
structure ZoneHierarchyData where
  zoneName : String
  domains : List String
  nameservers : List String
  depth : Nat
  isDelegated : Bool
  isCname : Bool
  cnameTarget : Option String := none
  children : List ZoneHierarchyData := []

/-- Effect of one candidate iteration on the walk: either a new child node is
pushed (and becomes the current parent), or the current parent is updated in
place. -/
inductive StepResult where
  | newNode (z : ZoneHierarchyData)
  | folded (parent : ZoneHierarchyData)

/-- Folding a candidate into the current parent's `domains` (the `else`
branch at dns.ts lines 225–238 and the `catch` branch at lines 239–256; both
net to the same state change: in the `else` branch a CNAME-lookup throw
escapes to the candidate-level `catch` only after the push already happened,
and the `catch` then skips the already-present domain). -/
def foldCandidate (env : DnsEnv) (queriedDomain : String)
    (parent : ZoneHierarchyData) (domainToCheck : String) : ZoneHierarchyData :=
  if parent.domains.contains domainToCheck then parent
  else
    let parent' := { parent with domains := parent.domains ++ [domainToCheck] }
    if domainToCheck == queriedDomain then
      match getCnameInfo env queriedDomain with
      | .ok (true, target) => { parent' with isCname := true, cnameTarget := target }
      | _ => parent'
    else parent'

/-- One iteration of the candidate loop (dns.ts lines 197–257): fetch zone
info and the delegation verdict; a new node is created when `idx === 0 ||
isDelegated` (and the CNAME lookup for the queried name, when required,
succeeds); every failure path folds the candidate into the current parent. -/
def candidateStep (env : DnsEnv) (queriedDomain : String)
    (parent : ZoneHierarchyData) (currentDepth idx : Nat)
    (domainToCheck : String) : StepResult :=
  match getZoneInfo env domainToCheck with
  | .error _ => .folded (foldCandidate env queriedDomain parent domainToCheck)
  | .ok (checkZone, checkNS) =>
    match isZoneDelegated env domainToCheck parent.zoneName with
    | .error _ => .folded (foldCandidate env queriedDomain parent domainToCheck)
    | .ok isDelegated =>
      if idx == 0 || isDelegated then
        match (if domainToCheck == queriedDomain
               then getCnameInfo env queriedDomain
               else Except.ok (false, none)) with
        | .error _ => .folded (foldCandidate env queriedDomain parent domainToCheck)
        | .ok (isCname, cnameTarget) =>
          .newNode {
            zoneName := checkZone
            domains := [checkZone]
            nameservers := checkNS
            depth := currentDepth
            isDelegated := decide (idx > 0) && isDelegated
            isCname := isCname
            cnameTarget := cnameTarget
            children := [] }
      else
        .folded (foldCandidate env queriedDomain parent domainToCheck)

/-- The candidate loop.  The walk only ever appends a child to the current
parent and then descends into it, so the constructed subtree is a chain; the
state is that chain in reverse (head = `currentParent`), together with
`currentDepth` and the loop index. -/
def walkCandidates (env : DnsEnv) (queriedDomain : String) :
    List String → Nat → Nat → List ZoneHierarchyData → List ZoneHierarchyData
  | [], _, _, chain => chain.reverse
  | domainToCheck :: rest, idx, currentDepth, chain =>
    match chain with
    | [] => []
    | parent :: tail =>
      match candidateStep env queriedDomain parent currentDepth idx domainToCheck with
      | .newNode z =>
        walkCandidates env queriedDomain rest (idx + 1) (currentDepth + 1) (z :: parent :: tail)
      | .folded p =>
        walkCandidates env queriedDomain rest (idx + 1) currentDepth (p :: tail)

/-- Nest a walk chain `[tldZone, n1, n2, ...]` into the parent/child tree the
aliased `children.push` calls produce. -/
def assembleChain : List ZoneHierarchyData → List ZoneHierarchyData
  | [] => []
  | z :: rest => [{ z with children := assembleChain rest }]

/-- Body of the `try` block of `buildZoneHierarchy` (dns.ts lines 163–258):
build the TLD node and run the candidate walk, producing the root's children.
The public-suffix set (loaded by `getPublicSuffixList` from a data module
outside the engine) is passed as the parameter `psl`. -/
def buildBelowRoot (env : DnsEnv) (psl : List String)
    (queriedDomain : String) : Except String (List ZoneHierarchyData) :=
  let cleanDomain := stripTrailingDot queriedDomain
  let parts := splitOnDot cleanDomain
  let tld := parts.getLastD ""
  let potentialPublicSuffix := joinDots (parts.drop (parts.length - 2))
  let isSpecialTLD := psl.contains potentialPublicSuffix
  match getZoneInfo env tld with
  | .error e => .error e
  | .ok zi =>
    let tldZone : ZoneHierarchyData := {
      zoneName := tld
      domains := if isSpecialTLD then [tld, potentialPublicSuffix] else [tld]
      nameservers := zi.2
      depth := 1
      isDelegated := true
      isCname := false
      cnameTarget := none
      children := [] }
    if parts.length > (if isSpecialTLD then 2 else 1) then
      let startIndex := if isSpecialTLD then parts.length - 3 else parts.length - 2
      let domainsToCheck := (List.range (startIndex + 1)).reverse.map
        (fun i => joinDots (parts.drop i))
      .ok (assembleChain (walkCandidates env queriedDomain domainsToCheck 0 2 [tldZone]))
    else
      .ok [tldZone]

/-- `buildZoneHierarchy` (dns.ts lines 134–264): initial NXDOMAIN probe, root
node, early return for `"."`, then the `try`/`catch`-wrapped boundary walk
whose failure leaves the root childless. -/
def buildZoneHierarchy (env : DnsEnv) (psl : List String)
    (queriedDomain : String) : Except String ZoneHierarchyData :=
  match env queriedDomain "SOA" with
  | .error e => .error e
  | .ok initialCheck =>
    if initialCheck.Status == 3 then
      Except.error ("Domain " ++ queriedDomain ++ " does not exist")
    else
      match getNameservers env "." with
      | .error e => .error e
      | .ok rootNS =>
        let root : ZoneHierarchyData := {
          zoneName := "."
          domains := ["."]
          nameservers := rootNS
          depth := 0
          isDelegated := false
          isCname := false
          cnameTarget := none
          children := [] }
        if queriedDomain == "." then
          .ok root
        else
          match buildBelowRoot env psl queriedDomain with
          | .ok children => .ok { root with children := children }
          | .error _ => .ok root

/-! ### `src/utils/dns.ts`: record aggregator (`queryDnsWithMaxTTL`) -/

/-- TTL values in a response's Answer section (empty when absent). -/
def answerTTLs (r : DnsResponse) : List Nat :=
  match r.Answer with
  | some ans => ans.map (fun record => record.TTL)
  | none => []

/-- Highest Answer TTL of a response (`0` for a missing or empty Answer). -/
def maxAnswerTTL (r : DnsResponse) : Nat :=
  (answerTTLs r).foldl Nat.max 0

/-- `Promise.allSettled` + `filter(fulfilled)` + `map(value)` over the three
parallel queries. -/
def successfulResponses (queries : List (Except String DnsResponse)) : List DnsResponse :=
  queries.filterMap (fun q => q.toOption)

/-- The `for (const response of successfulResponses)` loop of
`queryDnsWithMaxTTL` (dns.ts lines 380–392), threading
`(maxTTLResponse, maxTTL)`.  For a non-empty Answer, `Math.max(...ttls)`
equals the `Nat.max` fold over the TTL list. -/
def selectMaxTTLLoop : List DnsResponse → DnsResponse × Nat → DnsResponse × Nat
  | [], acc => acc
  | response :: rest, (maxTTLResponse, maxTTL) =>
    match response.Answer with
    | some ans =>
      if ans.length > 0 then
        let highestTTL := (ans.map (fun record => record.TTL)).foldl Nat.max 0
        if highestTTL > maxTTL then
          selectMaxTTLLoop rest (response, highestTTL)
        else
          selectMaxTTLLoop rest (maxTTLResponse, maxTTL)
      else
        selectMaxTTLLoop rest (maxTTLResponse, maxTTL)
    | none => selectMaxTTLLoop rest (maxTTLResponse, maxTTL)

/-- `queryDnsWithMaxTTL` (dns.ts lines 358–395) applied to the outcomes of
its three parallel queries: fail if all failed, otherwise run the max-TTL
selection loop seeded with the first successful response and `maxTTL = 0`. -/
def queryDnsWithMaxTTL (q1 q2 q3 : Except String DnsResponse) : Except String DnsResponse :=
  match successfulResponses [q1, q2, q3] with
  | [] => Except.error "All DNS queries failed"
  | firstResponse :: rest =>
    Except.ok (selectMaxTTLLoop (firstResponse :: rest) (firstResponse, 0)).1

/-! ### `src/utils/rate-limiter.ts`

The `RateLimiter` instance state is its `queries` array of millisecond
timestamps; `Date.now()` is passed explicitly as `now`. -/

/-- `cleanup()`: drop entries with `now - timestamp >= windowMs`. -/
def cleanupQueries (windowMs now : Int) (queries : List Int) : List Int :=
  queries.filter (fun t => now - t < windowMs)

/-- `canMakeQuery()`: cleanup, then compare against `maxQueries`; returns the
verdict together with the trimmed state (the method mutates `this.queries`). -/
def canMakeQuery (maxQueries : Nat) (windowMs now : Int) (queries : List Int) :
    Bool × List Int :=
  let qs := cleanupQueries windowMs now queries
  (decide (qs.length < maxQueries), qs)

/-- `recordQuery()`: append the current time. -/
def recordQuery (now : Int) (queries : List Int) : List Int :=
  queries ++ [now]

/-- `getResetTime()`: time until the oldest retained timestamp exits the
window, `0` for an empty window. -/
def getResetTime (windowMs now : Int) (queries : List Int) : Int :=
  match queries with
  | [] => 0
  | oldest :: _ => max 0 (oldest + windowMs - now)

/-! ### `src/utils/rdap.ts`

The RDAP response body is untyped JSON; it is modelled by an inductive `Json`
value, with JavaScript property/index access, optional chaining (`?.`),
truthiness (`||` fallbacks) and thrown `TypeError`s made explicit.  The
bootstrap lookup and the HTTP transport are modelled by the `serverFound`,
`httpOk` and `httpStatus` parameters of `queryRdap`. -/

/-- Untyped JSON values. -/
inductive Json where
  | null
  | bool (b : Bool)
  | num (n : Int)
  | str (s : String)
  | arr (elems : List Json)
  | obj (fields : List (String × Json))

/-- JavaScript strict equality against a string literal (`x === 's'`). -/
def Json.strEq (j : Json) (s : String) : Bool :=
  match j with
  | .str t => t == s
  | _ => false

/-- JavaScript truthiness (`undefined`/`null`, `false`, `0`, `""` are falsy). -/
def Json.truthy : Json → Bool
  | .null => false
  | .bool b => b
  | .num n => n != 0
  | .str s => s ≠ ""
  | .arr _ => true
  | .obj _ => true

/-- Plain property access `x.k`: throws `TypeError` on `null`/`undefined`,
yields `undefined` on primitives and missing keys. -/
def Json.getE : Json → String → Except String Json
  | .null, _ => .error "TypeError"
  | .obj fields, k => .ok (((fields.find? (fun p => p.1 == k)).map (fun p => p.2)).getD .null)
  | _, _ => .ok .null

/-- Optional-chained property access `x?.k`. -/
def Json.getOpt : Json → String → Json
  | .obj fields, k => ((fields.find? (fun p => p.1 == k)).map (fun p => p.2)).getD .null
  | _, _ => .null

/-- Optional-chained index access `x?.[i]`. -/
def Json.idxOpt : Json → Nat → Json
  | .arr elems, i => (elems.get? i).getD .null
  | _, _ => .null

/-- `Array.prototype.find` with an effectful (possibly throwing) predicate. -/
def jsonFindM : List Json → (Json → Except String Bool) → Except String (Option Json)
  | [], _ => .ok none
  | x :: xs, p =>
    match p x with
    | .error e => .error e
    | .ok b => if b then .ok (some x) else jsonFindM xs p

/-- Optional-chained `x?.find(p)`: `undefined` receiver short-circuits,
non-array receiver throws. -/
def Json.findOptE (j : Json) (p : Json → Except String Bool) : Except String Json :=
  match j with
  | .null => .ok .null
  | .arr elems => (jsonFindM elems p).map (fun o => o.getD .null)
  | _ => .error "TypeError"

/-- Plain `x.find(p)`: throws on any non-array receiver. -/
def Json.findE (j : Json) (p : Json → Except String Bool) : Except String Json :=
  match j with
  | .arr elems => (jsonFindM elems p).map (fun o => o.getD .null)
  | _ => .error "TypeError"

/-- `x?.includes('s')`: `undefined` receiver is falsy, non-array throws. -/
def Json.includesStrOptE (j : Json) (s : String) : Except String Bool :=
  match j with
  | .null => .ok false
  | .arr elems => .ok (elems.any (fun e => e.strEq s))
  | _ => .error "TypeError"

/-- `elems.map(ns => ns.ldhName)` over JSON array elements (element property
access may throw on a `null` element). -/
def jsonMapGetE : List Json → String → Except String (List Json)
  | [], _ => .ok []
  | x :: xs, k =>
    match x.getE k with
    | .error e => .error e
    | .ok v =>
      match jsonMapGetE xs k with
      | .error e => .error e
      | .ok rest => .ok (v :: rest)

/-- `x?.map(ns => ns.ldhName)`: `undefined` receiver short-circuits,
non-array receiver throws. -/
def Json.mapLdhOptE (j : Json) : Except String Json :=
  match j with
  | .null => .ok .null
  | .arr elems => (jsonMapGetE elems "ldhName").map Json.arr
  | _ => .error "TypeError"

/-- `RdapResponse` (`types/dns.ts`): every data field is the raw JSON value
the parser extracted (`Json.null` standing for `undefined`). -/
structure RdapResponse where
  domain : Json := .null
  registrar : Json := .null
  registrationDate : Json := .null
  expirationDate : Json := .null
  status : Json := .null
  nameservers : Json := .null
  error : Option String := none

/-- The response-parsing section of `queryRdap` (rdap.ts lines 86–105): the
registrar vCard chain, the registration/expiration events, and the
`||`-defaulted `domain`, `registrar`, `status` and `nameservers` fields.  A
thrown `TypeError` anywhere surfaces as `Except.error`. -/
def parseRdapData (domain : String) (data : Json) : Except String RdapResponse :=
  match data.getE "entities" with
  | .error e => .error e
  | .ok entities =>
    match entities.findOptE (fun e =>
        match e.getE "roles" with
        | .error err => .error err
        | .ok roles => roles.includesStrOptE "registrar") with
    | .error e => .error e
    | .ok registrarEntity =>
      let vcardProps := (registrarEntity.getOpt "vcardArray").idxOpt 1
      match vcardProps.findOptE (fun v =>
          match v with
          | .null => .error "TypeError"
          | .arr elems => .ok (((elems.get? 0).getD .null).strEq "fn")
          | _ => .ok false) with
      | .error e => .error e
      | .ok fnEntry =>
        let registrar := fnEntry.idxOpt 3
        match data.getE "events" with
        | .error e => .error e
        | .ok eventsRaw =>
          let events := if eventsRaw.truthy then eventsRaw else .arr []
          match events.findE (fun e =>
              match e.getE "eventAction" with
              | .error err => .error err
              | .ok action => .ok (action.strEq "registration")) with
          | .error e => .error e
          | .ok registrationEvent =>
            match events.findE (fun e =>
                match e.getE "eventAction" with
                | .error err => .error err
                | .ok action => .ok (action.strEq "expiration")) with
            | .error e => .error e
            | .ok expirationEvent =>
              match data.getE "ldhName" with
              | .error e => .error e
              | .ok ldhName =>
                match data.getE "status" with
                | .error e => .error e
                | .ok statusVal =>
                  match data.getE "nameservers" with
                  | .error e => .error e
                  | .ok nameserversRaw =>
                    match nameserversRaw.mapLdhOptE with
                    | .error e => .error e
                    | .ok nameserversMapped =>
                      .ok {
                        domain := if ldhName.truthy then ldhName else .str domain
                        registrar := if registrar.truthy then registrar else .str "Unknown"
                        registrationDate := registrationEvent.getOpt "eventDate"
                        expirationDate := expirationEvent.getOpt "eventDate"
                        status := if statusVal.truthy then statusVal else .arr []
                        nameservers := if nameserversMapped.truthy then nameserversMapped else .arr []
                        error := none }

/-- `queryRdap` (rdap.ts lines 56–114): bootstrap-miss and HTTP-failure
short-circuits, then the parse with its enclosing `try`/`catch` that converts
any thrown error into the `Failed to fetch RDAP data` result. -/
def queryRdap (domain : String) (serverFound httpOk : Bool) (httpStatus : Nat)
    (data : Json) : RdapResponse :=
  if !serverFound then { error := some "RDAP server not found for this TLD" }
  else if !httpOk then { error := some ("RDAP query failed: " ++ toString httpStatus) }
  else
    match parseRdapData domain data with
    | .ok r => r
    | .error _ => { error := some "Failed to fetch RDAP data" }

/-! ### Concrete environments

Deterministic query tables in the style of the repository's vitest mocks,
used to evaluate the engine on closed inputs. -/

/-- Shorthand for building a `DnsRecord` fixture. -/
def fixtureRecord (n : String) (t ttl : Nat) (d : String) : DnsRecord :=
  { name := n, type := t, TTL := ttl, data := d }

/-- A resolver for `example.com` whose CNAME lookup at the queried name
throws (timeout), while the SOA/NS lookups classify `example.com` as a zone
with an NS set disjoint from `com`'s. -/
def envC1 : DnsEnv := fun domain rtype =>
  match domain, rtype with
  | ".", "NS" => .ok { Status := 0, Answer := some [fixtureRecord "." 2 518400 "a.root-servers.net."] }
  | "com", "SOA" => .ok { Status := 0, Authority := some [fixtureRecord "com." 6 900 "a.gtld-servers.net. nstld.verisign-grs.com. 1 1800 900 604800 86400"] }
  | "com", "NS" => .ok { Status := 0, Answer := some [fixtureRecord "com." 2 172800 "a.gtld-servers.net."] }
  | "example.com", "SOA" => .ok { Status := 0, Answer := some [fixtureRecord "example.com." 6 3600 "ns1.example.com. admin.example.com. 1 7200 3600 1209600 3600"] }
  | "example.com", "NS" => .ok { Status := 0, Answer := some [fixtureRecord "example.com." 2 3600 "ns1.example.com."] }
  | "example.com", "CNAME" => .error "DNS query timed out. Please try again."
  | _, _ => .error "no mock response"

/-- A resolver for `example.com`: the queried name answers SOA at its own
name and its NS set shares no member with `com`'s NS set (delegation in the
DNS sense); the CNAME lookup answers empty. -/
def envC2 : DnsEnv := fun domain rtype =>
  match domain, rtype with
  | ".", "NS" => .ok { Status := 0, Answer := some [fixtureRecord "." 2 518400 "a.root-servers.net."] }
  | "com", "SOA" => .ok { Status := 0, Authority := some [fixtureRecord "com." 6 900 "a.gtld-servers.net. nstld.verisign-grs.com. 1 1800 900 604800 86400"] }
  | "com", "NS" => .ok { Status := 0, Answer := some [fixtureRecord "com." 2 172800 "a.gtld-servers.net."] }
  | "example.com", "SOA" => .ok { Status := 0, Answer := some [fixtureRecord "example.com." 6 3600 "ns1.example.com. admin.example.com. 1 7200 3600 1209600 3600"] }
  | "example.com", "NS" => .ok { Status := 0, Answer := some [fixtureRecord "example.com." 2 3600 "ns1.example.com."] }
  | "example.com", "CNAME" => .ok { Status := 0, Answer := some [] }
  | _, _ => .error "no mock response"

/-- A resolver for `sub.example.com` where the intermediate candidate
`example.com` is NXDOMAIN (Status 3) while the deeper candidate
`sub.example.com` is a delegated zone. -/
def envC3 : DnsEnv := fun domain rtype =>
  match domain, rtype with
  | ".", "NS" => .ok { Status := 0, Answer := some [fixtureRecord "." 2 518400 "a.root-servers.net."] }
  | "com", "SOA" => .ok { Status := 0, Authority := some [fixtureRecord "com." 6 900 "a.gtld-servers.net. nstld.verisign-grs.com. 1 1800 900 604800 86400"] }
  | "com", "NS" => .ok { Status := 0, Answer := some [fixtureRecord "com." 2 172800 "a.gtld-servers.net."] }
  | "example.com", "SOA" => .ok { Status := 3 }
  | "sub.example.com", "SOA" => .ok { Status := 0, Answer := some [fixtureRecord "sub.example.com." 6 3600 "ns1.sub-dns.net. admin.sub.example.com. 1 7200 3600 1209600 3600"] }
  | "sub.example.com", "NS" => .ok { Status := 0, Answer := some [fixtureRecord "sub.example.com." 2 3600 "ns1.sub-dns.net."] }
  | "sub.example.com", "CNAME" => .ok { Status := 0, Answer := some [] }
  | _, _ => .error "no mock response"

/-- A resolver whose SOA existence probe for `nx.example` is NXDOMAIN. -/
def envC4 : DnsEnv := fun domain rtype =>
  match domain, rtype with
  | "nx.example", "SOA" => .ok { Status := 3 }
  | _, _ => .error "no mock response"

/-- A resolver where the queried name `foo.com` has no zone of its own (its
SOA query fails) but does carry a CNAME with a mixed-case, trailing-dot
target. -/
def envC5 : DnsEnv := fun domain rtype =>
  match domain, rtype with
  | "foo.com", "SOA" => .error "DNS query failed: 500 Internal Server Error"
  | "foo.com", "CNAME" => .ok { Status := 0, Answer := some [fixtureRecord "foo.com." 5 300 "Bar.Example.Net."] }
  | _, _ => .error "no mock response"

/-- A resolver for `a.b.com` where the queried name simultaneously looks like
a zone apex (Authority SOA at its own name), is delegated relative to
`b.com`, and carries a CNAME answer. -/
def envC6 : DnsEnv := fun domain rtype =>
  match domain, rtype with
  | ".", "NS" => .ok { Status := 0, Answer := some [fixtureRecord "." 2 518400 "a.root-servers.net."] }
  | "com", "SOA" => .ok { Status := 0, Authority := some [fixtureRecord "com." 6 900 "a.gtld-servers.net. nstld.verisign-grs.com. 1 1800 900 604800 86400"] }
  | "com", "NS" => .ok { Status := 0, Answer := some [fixtureRecord "com." 2 172800 "a.gtld-servers.net."] }
  | "b.com", "SOA" => .ok { Status := 0, Answer := some [fixtureRecord "b.com." 6 3600 "ns1.b.com. admin.b.com. 1 7200 3600 1209600 3600"] }
  | "b.com", "NS" => .ok { Status := 0, Answer := some [fixtureRecord "b.com." 2 3600 "ns1.b.com."] }
  | "a.b.com", "SOA" => .ok { Status := 0, Authority := some [fixtureRecord "a.b.com." 6 3600 "ns1.other.net. admin.a.b.com. 1 7200 3600 1209600 3600"] }
  | "a.b.com", "NS" => .ok { Status := 0, Answer := some [fixtureRecord "a.b.com." 2 3600 "ns1.other.net."] }
  | "a.b.com", "CNAME" => .ok { Status := 0, Answer := some [fixtureRecord "a.b.com." 5 300 "LB.Example.Net."] }
  | _, _ => .error "no mock response"

/-- A successful response whose Answer section is present but empty. -/
def respC7A : DnsResponse := { Status := 0, Answer := some [] }

/-- A successful response whose Answer section holds one record with TTL 0. -/
def respC7B : DnsResponse :=
  { Status := 0, Answer := some [fixtureRecord "example.com." 6 0 "ns1.example.com. admin.example.com. 1 7200 3600 1209600 3600"] }

/-- Three successful SOA responses with Answer TTLs 58, 60 and 59. -/
def respTTL58 : DnsResponse :=
  { Status := 0, Answer := some [fixtureRecord "example.com." 6 58 "ns1.example.com. admin.example.com. 1 7200 3600 1209600 3600"] }

/-- See `respTTL58`. -/
def respTTL60 : DnsResponse :=
  { Status := 0, Answer := some [fixtureRecord "example.com." 6 60 "ns1.example.com. admin.example.com. 1 7200 3600 1209600 3600"] }

/-- See `respTTL58`. -/
def respTTL59 : DnsResponse :=
  { Status := 0, Answer := some [fixtureRecord "example.com." 6 59 "ns1.example.com. admin.example.com. 1 7200 3600 1209600 3600"] }

/-- A resolver that knows only the existence probe for `w.x` and the root NS
set; every other query fails (so the whole boundary walk fails at the TLD
node). -/
def envC10 : DnsEnv := fun domain rtype =>
  match domain, rtype with
  | "w.x", "SOA" => .ok { Status := 0 }
  | ".", "NS" => .ok { Status := 0, Answer := some [fixtureRecord "." 2 518400 "a.root-servers.net."] }
  | _, _ => .error "no mock response"

/-- The `com` TLD node as produced at depth 1 of the walk (parent fixture for
step-level witnesses). -/
def comTldZone : ZoneHierarchyData :=
  { zoneName := "com", domains := ["com"], nameservers := ["a.gtld-servers.net."],
    depth := 1, isDelegated := true, isCname := false, cnameTarget := none, children := [] }

/-- A `b.com` chain node at depth 2 (parent fixture for step-level
witnesses). -/
def bComZone : ZoneHierarchyData :=
  { zoneName := "b.com", domains := ["b.com"], nameservers := ["ns1.b.com."],
    depth := 2, isDelegated := false, isCname := false, cnameTarget := none, children := [] }

/-! ### Shared lemmas about the boundary walk -/

theorem candidateStep_of_zoneInfo_error {env : DnsEnv} {qd : String}
    {parent : ZoneHierarchyData} {currentDepth idx : Nat} {dtc e : String}
    (h : getZoneInfo env dtc = .error e) :
    candidateStep env qd parent currentDepth idx dtc =
      .folded (foldCandidate env qd parent dtc) := by
  unfold candidateStep
  rw [h]

theorem candidateStep_of_delegation_error {env : DnsEnv} {qd : String}
    {parent : ZoneHierarchyData} {currentDepth idx : Nat} {dtc e : String}
    {zi : String × List String}
    (h1 : getZoneInfo env dtc = .ok zi)
    (h2 : isZoneDelegated env dtc parent.zoneName = .error e) :
    candidateStep env qd parent currentDepth idx dtc =
      .folded (foldCandidate env qd parent dtc) := by
  unfold candidateStep
  rw [h1, h2]

theorem candidateStep_of_ok {env : DnsEnv} {qd : String}
    {parent : ZoneHierarchyData} {currentDepth idx : Nat} {dtc : String}
    {zn : String} {ns : List String} {del : Bool}
    (h1 : getZoneInfo env dtc = .ok (zn, ns))
    (h2 : isZoneDelegated env dtc parent.zoneName = .ok del) :
    candidateStep env qd parent currentDepth idx dtc =
      (if idx == 0 || del then
        match (if dtc == qd then getCnameInfo env qd else Except.ok (false, none)) with
        | .error _ => .folded (foldCandidate env qd parent dtc)
        | .ok (isCname, cnameTarget) =>
          .newNode {
            zoneName := zn, domains := [zn], nameservers := ns,
            depth := currentDepth, isDelegated := decide (idx > 0) && del,
            isCname := isCname, cnameTarget := cnameTarget, children := [] }
      else
        .folded (foldCandidate env qd parent dtc)) := by
  unfold candidateStep
  rw [h1, h2]

theorem getZoneInfo_of_nxdomain {env : DnsEnv} {dtc : String} {r : DnsResponse}
    (h : env dtc "SOA" = .ok r) (h3 : r.Status = 3) :
    getZoneInfo env dtc = .error ("Domain " ++ dtc ++ " does not exist") := by
  unfold getZoneInfo
  rw [h]
  dsimp only
  rw [h3]
  rfl

theorem getCnameInfo_of_answer {env : DnsEnv} {qd : String} {resp : DnsResponse}
    {ans : List DnsRecord} {record : DnsRecord}
    (hC : env qd "CNAME" = .ok resp) (hAns : resp.Answer = some ans)
    (hFind : ans.find? (fun r => r.type == 5) = some record) :
    getCnameInfo env qd = .ok (true, some (toLowerS record.data)) := by
  unfold getCnameInfo
  rw [hC]
  dsimp only
  rw [hAns]
  cases ans with
  | nil => simp at hFind
  | cons a as =>
    dsimp only
    rw [if_pos (by simp), hFind]

theorem foldCandidate_of_mem {env : DnsEnv} {qd : String}
    {parent : ZoneHierarchyData} {dtc : String} (h : dtc ∈ parent.domains) :
    foldCandidate env qd parent dtc = parent := by
  unfold foldCandidate
  rw [if_pos (by simpa using h)]

theorem foldCandidate_domains_of_not_mem {env : DnsEnv} {qd : String}
    {parent : ZoneHierarchyData} {dtc : String} (h : dtc ∉ parent.domains) :
    (foldCandidate env qd parent dtc).domains = parent.domains ++ [dtc] := by
  unfold foldCandidate
  rw [if_neg (by simpa using h)]
  split
  · split <;> rfl
  · rfl

theorem foldCandidate_of_cname {env : DnsEnv} {qd : String}
    {parent : ZoneHierarchyData} {t : String}
    (hGet : getCnameInfo env qd = .ok (true, some t)) (h : qd ∉ parent.domains) :
    foldCandidate env qd parent qd =
      { parent with domains := parent.domains ++ [qd], isCname := true,
                    cnameTarget := some t } := by
  unfold foldCandidate
  rw [if_neg (by simpa using h), if_pos (by simp), hGet]

theorem candidateStep_newNode_eq {env : DnsEnv} {qd : String}
    {parent : ZoneHierarchyData} {currentDepth idx : Nat} {dtc : String}
    {zn : String} {ns : List String} {del cb : Bool} {ct : Option String}
    (h1 : getZoneInfo env dtc = .ok (zn, ns))
    (h2 : isZoneDelegated env dtc parent.zoneName = .ok del)
    (hcond : (idx == 0 || del) = true)
    (hci : (if dtc == qd then getCnameInfo env qd else Except.ok (false, none)) = .ok (cb, ct)) :
    candidateStep env qd parent currentDepth idx dtc = .newNode
      { zoneName := zn, domains := [zn], nameservers := ns, depth := currentDepth,
        isDelegated := decide (idx > 0) && del, isCname := cb, cnameTarget := ct,
        children := [] } := by
  rw [candidateStep_of_ok h1 h2, if_pos hcond, hci]

theorem candidateStep_folded_of_not_cond {env : DnsEnv} {qd : String}
    {parent : ZoneHierarchyData} {currentDepth idx : Nat} {dtc : String}
    {zn : String} {ns : List String} {del : Bool}
    (h1 : getZoneInfo env dtc = .ok (zn, ns))
    (h2 : isZoneDelegated env dtc parent.zoneName = .ok del)
    (hcond : (idx == 0 || del) = false) :
    candidateStep env qd parent currentDepth idx dtc =
      .folded (foldCandidate env qd parent dtc) := by
  rw [candidateStep_of_ok h1 h2, if_neg (by simp [hcond])]

/-! ### Claim C1 -/

/-- Claim C1 counterexample: under `envC1` the single candidate
`example.com` *is* a zone (its `getZoneInfo` succeeds) and it is the very
first candidate examined, yet it is **not** turned into a new child node —
because its CNAME lookup throws, the candidate is folded into `com`'s
`domains` and the `com` node ends up childless.  This falsifies the claimed
"if and only if". -/
theorem claim1_counterexample :
    getZoneInfo envC1 "example.com" = .ok ("example.com", ["ns1.example.com."])
    ∧ isZoneDelegated envC1 "example.com" "com" = .ok true
    ∧ getCnameInfo envC1 "example.com" = .error "DNS query timed out. Please try again."
    ∧ buildZoneHierarchy envC1 [] "example.com" = .ok
        { zoneName := ".", domains := ["."], nameservers := ["a.root-servers.net."],
          depth := 0, isDelegated := false, isCname := false, cnameTarget := none,
          children := [
            { zoneName := "com", domains := ["com", "example.com"],
              nameservers := ["a.gtld-servers.net."], depth := 1, isDelegated := true,
              isCname := false, cnameTarget := none, children := [] } ] } :=
  ⟨rfl, rfl, rfl, rfl⟩

/-- Claim C1 (amended): during the boundary walk, a candidate that is a zone
(and whose delegation check does not throw) is turned into a new child node
iff it is the very first candidate examined or it is delegated relative to
the current parent — provided that, when the candidate is the queried
domain, its CNAME lookup does not throw; otherwise it is folded into the
current parent's `domains`, appended in walk order and never duplicated
(insertion is idempotent by string equality). -/
theorem claim1_walk_rule (env : DnsEnv) (qd : String) (parent : ZoneHierarchyData)
    (currentDepth idx : Nat) (dtc zn : String) (ns : List String) (del : Bool)
    (h1 : getZoneInfo env dtc = .ok (zn, ns))
    (h2 : isZoneDelegated env dtc parent.zoneName = .ok del)
    (h3 : dtc = qd → ∃ ci, getCnameInfo env qd = .ok ci) :
    ((idx = 0 ∨ del = true) →
      ∃ z, candidateStep env qd parent currentDepth idx dtc = .newNode z)
    ∧ (¬(idx = 0 ∨ del = true) →
        candidateStep env qd parent currentDepth idx dtc =
          .folded (foldCandidate env qd parent dtc))
    ∧ (∀ z, candidateStep env qd parent currentDepth idx dtc = .newNode z →
        (idx = 0 ∨ del = true))
    ∧ (dtc ∈ parent.domains → foldCandidate env qd parent dtc = parent)
    ∧ (dtc ∉ parent.domains →
        (foldCandidate env qd parent dtc).domains = parent.domains ++ [dtc]) := by
  have hcondOf : (idx = 0 ∨ del = true) → (idx == 0 || del) = true := by
    rintro (h | h) <;> simp [h]
  have hcondNeg : ¬(idx = 0 ∨ del = true) → (idx == 0 || del) = false := by
    intro h
    have h0 : ¬ idx = 0 := fun hh => h (Or.inl hh)
    have hdel : del = false := by
      cases del
      · rfl
      · exact absurd (Or.inr rfl) h
    simp [h0, hdel]
  refine ⟨?_, ?_, ?_, foldCandidate_of_mem, foldCandidate_domains_of_not_mem⟩
  · intro hcond
    by_cases hq : dtc = qd
    · obtain ⟨⟨cb, ct⟩, hci⟩ := h3 hq
      exact ⟨_, candidateStep_newNode_eq h1 h2 (hcondOf hcond)
        (by rw [if_pos (by simp [hq]), hci])⟩
    · exact ⟨_, candidateStep_newNode_eq h1 h2 (hcondOf hcond)
        (by rw [if_neg (by simp [hq])])⟩
  · intro hcond
    exact candidateStep_folded_of_not_cond h1 h2 (hcondNeg hcond)
  · intro z hz
    by_contra hcond
    rw [candidateStep_folded_of_not_cond h1 h2 (hcondNeg hcond)] at hz
    exact StepResult.noConfusion hz

/-- Claim C1 witness: the amended rule applied to a concrete first candidate
(`example.com` under `envC1`, queried name distinct so the CNAME proviso is
vacuous) produces a new node. -/
theorem claim1_walk_rule_witness :
    ∃ z, candidateStep envC1 "other.net" comTldZone 2 0 "example.com" = .newNode z :=
  (claim1_walk_rule envC1 "other.net" comTldZone 2 0 "example.com" "example.com"
    ["ns1.example.com."] true rfl rfl (fun h => absurd h (by decide))).1 (Or.inl rfl)

/-! ### Claim C2 -/

/-- Claim C2 counterexample: under `envC2` the NS sets of `example.com` and
of the current parent `com` are both non-empty and share no element, the
candidate is classified delegated (`isZoneDelegated` answers `true`) and it
does become a distinct `ZoneHierarchyData` node — but, being the very first
candidate examined (`idx = 0`), the resulting node carries
`isDelegated = false`, not `true` as claimed. -/
theorem claim2_counterexample :
    getNameservers envC2 "com" = .ok ["a.gtld-servers.net."]
    ∧ getNameservers envC2 "example.com" = .ok ["ns1.example.com."]
    ∧ isZoneDelegated envC2 "example.com" "com" = .ok true
    ∧ buildZoneHierarchy envC2 [] "example.com" = .ok
        { zoneName := ".", domains := ["."], nameservers := ["a.root-servers.net."],
          depth := 0, isDelegated := false, isCname := false, cnameTarget := none,
          children := [
            { zoneName := "com", domains := ["com"],
              nameservers := ["a.gtld-servers.net."], depth := 1, isDelegated := true,
              isCname := false, cnameTarget := none,
              children := [
                { zoneName := "example.com", domains := ["example.com"],
                  nameservers := ["ns1.example.com."], depth := 2,
                  isDelegated := false, isCname := false, cnameTarget := none,
                  children := [] } ] } ] } :=
  ⟨rfl, rfl, rfl, rfl⟩

/-- Claim C2 (amended): a candidate is classified delegated iff both its NS
set and the current parent's NS set are non-empty and disjoint; a delegated
candidate (whose zone info and CNAME lookup succeed) becomes a distinct
`ZoneHierarchyData` node, and its `isDelegated` flag is `true` exactly when
the candidate is not the very first one examined (`idx > 0`) — the first
candidate's node always carries `isDelegated = false`. -/
theorem claim2_delegation_rule (env : DnsEnv) (qd : String)
    (parent : ZoneHierarchyData) (currentDepth idx : Nat) (dtc : String)
    (pNS dNS : List String)
    (hp : getNameservers env parent.zoneName = .ok pNS)
    (hd : getNameservers env dtc = .ok dNS) :
    isZoneDelegated env dtc parent.zoneName =
      .ok (decide (dNS.length > 0) && decide (pNS.length > 0) &&
           !(pNS.any (fun ns => dNS.contains ns)))
    ∧ (dNS ≠ [] → pNS ≠ [] → (∀ x ∈ pNS, x ∉ dNS) →
        ∀ zn ns, getZoneInfo env dtc = .ok (zn, ns) →
          (dtc = qd → ∃ ci, getCnameInfo env qd = .ok ci) →
          ∃ z, candidateStep env qd parent currentDepth idx dtc = .newNode z ∧
            z.isDelegated = decide (idx > 0) ∧ z.zoneName = zn) := by
  have hdeleg : isZoneDelegated env dtc parent.zoneName =
      .ok (decide (dNS.length > 0) && decide (pNS.length > 0) &&
           !(pNS.any (fun ns => dNS.contains ns))) := by
    unfold isZoneDelegated
    rw [hp]
    dsimp only
    rw [hd]
  refine ⟨hdeleg, ?_⟩
  intro hdne hpne hdisj zn ns h1 h3
  have hval : (decide (dNS.length > 0) && decide (pNS.length > 0) &&
      !(pNS.any (fun ns => dNS.contains ns))) = true := by
    have h₁ : dNS.length > 0 := List.length_pos.mpr hdne
    have h₂ : pNS.length > 0 := List.length_pos.mpr hpne
    have h₃ : pNS.any (fun ns => dNS.contains ns) = false := by
      simp only [List.any_eq_false]
      intro x hx
      simpa using hdisj x hx
    rw [h₃]
    simp [h₁, h₂]
  rw [hval] at hdeleg
  by_cases hq : dtc = qd
  · obtain ⟨⟨cb, ct⟩, hci⟩ := h3 hq
    refine ⟨_, candidateStep_newNode_eq h1 hdeleg (by simp)
      (by rw [if_pos (by simp [hq]), hci]), ?_, rfl⟩
    simp
  · refine ⟨_, candidateStep_newNode_eq h1 hdeleg (by simp)
      (by rw [if_neg (by simp [hq])]), ?_, rfl⟩
    simp

/-- Claim C2 witness: the amended rule applied under `envC2` at the concrete
candidate `example.com` below parent `com`. -/
theorem claim2_delegation_rule_witness :
    isZoneDelegated envC2 "example.com" "com" =
      .ok (decide (["ns1.example.com."].length > 0) &&
           decide (["a.gtld-servers.net."].length > 0) &&
           !(["a.gtld-servers.net."].any (fun ns => ["ns1.example.com."].contains ns)))
    ∧ ∃ z, candidateStep envC2 "example.com" comTldZone 2 0 "example.com" = .newNode z ∧
        z.isDelegated = decide ((0 : Nat) > 0) ∧ z.zoneName = "example.com" := by
  have h := claim2_delegation_rule envC2 "example.com" comTldZone 2 0 "example.com"
    ["a.gtld-servers.net."] ["ns1.example.com."] rfl rfl
  exact ⟨h.1, h.2 (by decide) (by decide) (by decide) "example.com" ["ns1.example.com."]
    rfl (fun _ => ⟨(false, none), rfl⟩)⟩

/-! ### Claim C3 -/

/-- Claim C3 counterexample: under `envC3` the candidate `example.com`
answers SOA with Status 3 (NXDOMAIN), yet the walk is **not** aborted: the
deeper candidate `sub.example.com` is still examined and becomes a delegated
child node (while `example.com` is folded into `com`'s `domains`). -/
theorem claim3_counterexample :
    envC3 "example.com" "SOA" = .ok { Status := 3 }
    ∧ buildZoneHierarchy envC3 [] "sub.example.com" = .ok
        { zoneName := ".", domains := ["."], nameservers := ["a.root-servers.net."],
          depth := 0, isDelegated := false, isCname := false, cnameTarget := none,
          children := [
            { zoneName := "com", domains := ["com", "example.com"],
              nameservers := ["a.gtld-servers.net."], depth := 1, isDelegated := true,
              isCname := false, cnameTarget := none,
              children := [
                { zoneName := "sub.example.com", domains := ["sub.example.com"],
                  nameservers := ["ns1.sub-dns.net."], depth := 2,
                  isDelegated := true, isCname := false, cnameTarget := none,
                  children := [] } ] } ] } :=
  ⟨rfl, rfl⟩

/-- Claim C3 (amended): when a candidate's SOA query returns DNS status 3,
`getZoneInfo` fails for that candidate, but the failure is caught by the
per-candidate handler: the candidate is folded into the current parent's
`domains` and the walk continues with the remaining (deeper) candidates —
it is not aborted. -/
theorem claim3_walk_continues (env : DnsEnv) (qd : String)
    (parent : ZoneHierarchyData) (tail : List ZoneHierarchyData)
    (currentDepth idx : Nat) (dtc : String) (rest : List String) (r : DnsResponse)
    (hSoa : env dtc "SOA" = .ok r) (hStatus : r.Status = 3) :
    candidateStep env qd parent currentDepth idx dtc =
      .folded (foldCandidate env qd parent dtc)
    ∧ walkCandidates env qd (dtc :: rest) idx currentDepth (parent :: tail) =
        walkCandidates env qd rest (idx + 1) currentDepth
          (foldCandidate env qd parent dtc :: tail) := by
  have hstep := @candidateStep_of_zoneInfo_error env qd parent currentDepth idx dtc _
    (getZoneInfo_of_nxdomain hSoa hStatus)
  refine ⟨hstep, ?_⟩
  conv_lhs => rw [walkCandidates]
  rw [hstep]

/-- Claim C3 witness: the amended continuation rule at the concrete NXDOMAIN
candidate `example.com` of `envC3`. -/
theorem claim3_walk_continues_witness :
    candidateStep envC3 "sub.example.com" comTldZone 2 0 "example.com" =
      .folded (foldCandidate envC3 "sub.example.com" comTldZone "example.com")
    ∧ walkCandidates envC3 "sub.example.com" ["example.com", "sub.example.com"] 0 2
        [comTldZone] =
        walkCandidates envC3 "sub.example.com" ["sub.example.com"] 1 2
          [foldCandidate envC3 "sub.example.com" comTldZone "example.com"] :=
  claim3_walk_continues envC3 "sub.example.com" comTldZone [] 2 0 "example.com"
    ["sub.example.com"] { Status := 3 } rfl rfl

/-! ### Claim C4 -/

/-- Claim C4: when the initial SOA existence probe answers status 3
(NXDOMAIN), `buildZoneHierarchy` fails with the domain-not-found error and
returns no tree. -/
theorem claim4_nxdomain_probe (env : DnsEnv) (psl : List String) (qd : String)
    (r : DnsResponse) (hProbe : env qd "SOA" = .ok r) (hStatus : r.Status = 3) :
    buildZoneHierarchy env psl qd = .error ("Domain " ++ qd ++ " does not exist") := by
  unfold buildZoneHierarchy
  rw [hProbe]
  dsimp only
  rw [hStatus]
  rfl

/-- Claim C4 witness: the probe failure at the concrete domain `nx.example`
of `envC4`. -/
theorem claim4_nxdomain_probe_witness :
    buildZoneHierarchy envC4 [] "nx.example" =
      .error ("Domain " ++ "nx.example" ++ " does not exist") :=
  claim4_nxdomain_probe envC4 [] "nx.example" { Status := 3 } rfl rfl

/-! ### Claim C5 -/

/-- Claim C5: when the CNAME query for the queried name answers with a
type-5 record, the candidate step at the queried name marks the node that
ends up owning the name — whether the newly created node or the parent it is
folded into — with `isCname = true` and `cnameTarget` equal to the
lowercased record data (`toLowerS` maps `'.'` to itself, so a trailing dot
is preserved; the witness exhibits this on a dotted target), regardless of
the delegation classification or of any lookup failure. -/
theorem claim5_cname_marks_owner (env : DnsEnv) (qd : String)
    (parent : ZoneHierarchyData) (currentDepth idx : Nat) (resp : DnsResponse)
    (ans : List DnsRecord) (record : DnsRecord)
    (hC : env qd "CNAME" = .ok resp) (hAns : resp.Answer = some ans)
    (hFind : ans.find? (fun r => r.type == 5) = some record)
    (hNotMem : qd ∉ parent.domains) :
    (match candidateStep env qd parent currentDepth idx qd with
     | .newNode z => z.isCname = true ∧ z.cnameTarget = some (toLowerS record.data)
     | .folded p => p.isCname = true ∧ p.cnameTarget = some (toLowerS record.data)) := by
  have hGet := getCnameInfo_of_answer hC hAns hFind
  have hfold : (foldCandidate env qd parent qd).isCname = true ∧
      (foldCandidate env qd parent qd).cnameTarget = some (toLowerS record.data) := by
    rw [foldCandidate_of_cname hGet hNotMem]
    exact ⟨rfl, rfl⟩
  cases hz : getZoneInfo env qd with
  | error e =>
    rw [candidateStep_of_zoneInfo_error hz]
    exact hfold
  | ok zi =>
    obtain ⟨zn, ns⟩ := zi
    cases hdel : isZoneDelegated env qd parent.zoneName with
    | error e =>
      rw [candidateStep_of_delegation_error hz hdel]
      exact hfold
    | ok del =>
      by_cases hcond : (idx == 0 || del) = true
      · rw [candidateStep_newNode_eq hz hdel hcond (by rw [if_pos (by simp)]; exact hGet)]
        exact ⟨rfl, rfl⟩
      · rw [candidateStep_folded_of_not_cond hz hdel (by simpa using hcond)]
        exact hfold

/-- Claim C5 witness: under `envC5` the queried name `foo.com` (whose SOA
lookup fails, so it is folded into the parent `com` node) is marked with the
lowercased, trailing-dot-preserving target `bar.example.net.`. -/
theorem claim5_cname_marks_owner_witness :
    (match candidateStep envC5 "foo.com" comTldZone 2 1 "foo.com" with
     | .newNode z => z.isCname = true ∧
         z.cnameTarget = some (toLowerS (fixtureRecord "foo.com." 5 300 "Bar.Example.Net.").data)
     | .folded p => p.isCname = true ∧
         p.cnameTarget = some (toLowerS (fixtureRecord "foo.com." 5 300 "Bar.Example.Net.").data)) :=
  claim5_cname_marks_owner envC5 "foo.com" comTldZone 2 1
    { Status := 0, Answer := some [fixtureRecord "foo.com." 5 300 "Bar.Example.Net."] }
    [fixtureRecord "foo.com." 5 300 "Bar.Example.Net."]
    (fixtureRecord "foo.com." 5 300 "Bar.Example.Net.")
    rfl rfl rfl (by decide)

/-! ### Claim C6 -/

/-- Claim C6 counterexample: under `envC6` the queried name `a.b.com` has a
CNAME answer, yet it *is* promoted to a distinct zone node with
`isDelegated = true` (its SOA probe yields zone-apex-like Authority data and
its NS set is disjoint from `b.com`'s): CNAME detection does not take
precedence at the queried name. -/
theorem claim6_counterexample :
    getCnameInfo envC6 "a.b.com" = .ok (true, some "lb.example.net.")
    ∧ buildZoneHierarchy envC6 [] "a.b.com" = .ok
        { zoneName := ".", domains := ["."], nameservers := ["a.root-servers.net."],
          depth := 0, isDelegated := false, isCname := false, cnameTarget := none,
          children := [
            { zoneName := "com", domains := ["com"],
              nameservers := ["a.gtld-servers.net."], depth := 1, isDelegated := true,
              isCname := false, cnameTarget := none,
              children := [
                { zoneName := "b.com", domains := ["b.com"],
                  nameservers := ["ns1.b.com."], depth := 2, isDelegated := false,
                  isCname := false, cnameTarget := none,
                  children := [
                    { zoneName := "a.b.com", domains := ["a.b.com"],
                      nameservers := ["ns1.other.net."], depth := 3,
                      isDelegated := true, isCname := true,
                      cnameTarget := some "lb.example.net.",
                      children := [] } ] } ] } ] } :=
  ⟨rfl, rfl⟩

/-- Claim C6 (amended): a CNAME answer at the queried name does not prevent
its promotion to a delegated zone node.  When the queried name's SOA probe
classifies it as a zone, its delegation check answers true and it is not the
first candidate, it becomes a distinct node with `isDelegated = true` and,
simultaneously, `isCname = true` with the CNAME target recorded: CNAME
detection does not take precedence over zone promotion at the queried
name. -/
theorem claim6_cname_no_precedence (env : DnsEnv) (qd : String)
    (parent : ZoneHierarchyData) (currentDepth idx : Nat) (zn : String)
    (ns : List String) (t : String)
    (h1 : getZoneInfo env qd = .ok (zn, ns))
    (h2 : isZoneDelegated env qd parent.zoneName = .ok true)
    (hidx : idx ≠ 0)
    (hc : getCnameInfo env qd = .ok (true, some t)) :
    candidateStep env qd parent currentDepth idx qd = .newNode
      { zoneName := zn, domains := [zn], nameservers := ns, depth := currentDepth,
        isDelegated := true, isCname := true, cnameTarget := some t,
        children := [] } := by
  have h := @candidateStep_newNode_eq env qd parent currentDepth idx qd zn ns true true
    (some t) h1 h2 (by simp) (by rw [if_pos (by simp)]; exact hc)
  have hd : (decide (idx > 0) && true) = true := by
    simp [Nat.pos_of_ne_zero hidx]
  rw [h, hd]

/-- Claim C6 witness: the amended promotion rule at the concrete delegated,
CNAME-bearing queried name `a.b.com` of `envC6`. -/
theorem claim6_cname_no_precedence_witness :
    candidateStep envC6 "a.b.com" bComZone 3 1 "a.b.com" = .newNode
      { zoneName := "a.b.com", domains := ["a.b.com"],
        nameservers := ["ns1.other.net."], depth := 3, isDelegated := true,
        isCname := true, cnameTarget := some "lb.example.net.", children := [] } :=
  claim6_cname_no_precedence envC6 "a.b.com" bComZone 3 1 "a.b.com"
    ["ns1.other.net."] "lb.example.net." rfl rfl (by decide) rfl

/-! ### Claim C7 -/

theorem selectMaxTTLLoop_cons (r : DnsResponse) (rest : List DnsResponse)
    (best : DnsResponse) (m : Nat) :
    selectMaxTTLLoop (r :: rest) (best, m) =
      (if maxAnswerTTL r > m then selectMaxTTLLoop rest (r, maxAnswerTTL r)
       else selectMaxTTLLoop rest (best, m)) := by
  cases hAns : r.Answer with
  | none =>
    have hk : maxAnswerTTL r = 0 := by simp [maxAnswerTTL, answerTTLs, hAns]
    rw [hk, if_neg (Nat.not_lt_zero m)]
    conv_lhs => rw [selectMaxTTLLoop]
    rw [hAns]
  | some ans =>
    cases ans with
    | nil =>
      have hk : maxAnswerTTL r = 0 := by simp [maxAnswerTTL, answerTTLs, hAns]
      rw [hk, if_neg (Nat.not_lt_zero m)]
      conv_lhs => rw [selectMaxTTLLoop]
      rw [hAns]
      rfl
    | cons a as =>
      have hk : maxAnswerTTL r = ((a :: as).map (fun record => record.TTL)).foldl Nat.max 0 := by
        simp [maxAnswerTTL, answerTTLs, hAns]
      conv_lhs => rw [selectMaxTTLLoop]
      rw [hAns]
      dsimp only
      rw [if_pos (by simp), ← hk]

theorem selectMaxTTLLoop_spec (l : List DnsResponse) :
    ∀ (best : DnsResponse) (m : Nat),
    (selectMaxTTLLoop l (best, m)).2 = (l.map maxAnswerTTL).foldl Nat.max m
    ∧ (((selectMaxTTLLoop l (best, m)).1 = best ∧ (selectMaxTTLLoop l (best, m)).2 = m)
       ∨ (m < (selectMaxTTLLoop l (best, m)).2
          ∧ (selectMaxTTLLoop l (best, m)).1 ∈ l
          ∧ maxAnswerTTL (selectMaxTTLLoop l (best, m)).1 =
              (selectMaxTTLLoop l (best, m)).2)) := by
  induction l with
  | nil =>
    intro best m
    exact ⟨rfl, Or.inl ⟨rfl, rfl⟩⟩
  | cons r rest ih =>
    intro best m
    rw [selectMaxTTLLoop_cons, List.map_cons, List.foldl_cons]
    by_cases h : maxAnswerTTL r > m
    · rw [if_pos h]
      obtain ⟨ih1, ih2⟩ := ih r (maxAnswerTTL r)
      have hmax : Nat.max m (maxAnswerTTL r) = maxAnswerTTL r :=
        Nat.max_eq_right (Nat.le_of_lt h)
      refine ⟨by rw [ih1, hmax], ?_⟩
      rcases ih2 with ⟨hb, hm⟩ | ⟨hlt, hmem, hK⟩
      · right
        refine ⟨by rw [hm]; exact h, by rw [hb]; exact List.mem_cons_self r rest, ?_⟩
        rw [hb, hm]
      · right
        exact ⟨Nat.lt_trans h hlt, List.mem_cons_of_mem r hmem, hK⟩
    · rw [if_neg h]
      obtain ⟨ih1, ih2⟩ := ih best m
      have hmax : Nat.max m (maxAnswerTTL r) = m :=
        Nat.max_eq_left (Nat.le_of_not_lt h)
      refine ⟨by rw [ih1, hmax], ?_⟩
      rcases ih2 with ⟨hb, hm⟩ | ⟨hlt, hmem, hK⟩
      · exact Or.inl ⟨hb, hm⟩
      · exact Or.inr ⟨hlt, List.mem_cons_of_mem r hmem, hK⟩

/-- Claim C7 counterexample: with one successful response carrying an empty
Answer and another whose Answer holds the (unique, hence highest) TTL value
0, the aggregator retains the *empty-Answer* response: the response whose
Answer section contains the highest TTL is not the one retained (the
`maxTTL` accumulator starts at 0 and only a strictly greater TTL wins). -/
theorem claim7_counterexample :
    queryDnsWithMaxTTL (.ok respC7A) (.ok respC7B)
        (.error "DNS query timed out. Please try again.") = .ok respC7A
    ∧ answerTTLs respC7A = []
    ∧ answerTTLs respC7B = [0]
    ∧ ¬ (∃ t, t ∈ answerTTLs respC7A ∧
          ∀ rr ∈ successfulResponses
              [.ok respC7A, .ok respC7B, .error "DNS query timed out. Please try again."],
            ∀ u ∈ answerTTLs rr, u ≤ t)
    ∧ (∃ t, t ∈ answerTTLs respC7B ∧
          ∀ rr ∈ successfulResponses
              [.ok respC7A, .ok respC7B, .error "DNS query timed out. Please try again."],
            ∀ u ∈ answerTTLs rr, u ≤ t) := by
  refine ⟨rfl, rfl, rfl, ?_, ?_⟩
  · rintro ⟨t, ht, -⟩
    simp [answerTTLs, respC7A] at ht
  · refine ⟨0, by simp [answerTTLs, respC7B, fixtureRecord], ?_⟩
    intro rr hrr u hu
    have hs : successfulResponses
        [.ok respC7A, .ok respC7B, .error "DNS query timed out. Please try again."] =
        [respC7A, respC7B] := rfl
    rw [hs] at hrr
    rcases List.mem_cons.mp hrr with rfl | hrr
    · simp [answerTTLs, respC7A] at hu
    · rcases List.mem_cons.mp hrr with rfl | hrr
      · simp [answerTTLs, respC7B, fixtureRecord] at hu
        omega
      · simp at hrr

/-- Claim C7 (amended): for every record type, three queries are issued and
aggregated as follows: among the successful responses, one whose Answer
section attains the maximum TTL is retained whenever that maximum is
positive; when no successful response has an Answer record with positive TTL
(in particular when every Answer section is empty), the first successful
response is retained.  In the spec's example — successful responses with
Answer TTLs 58, 60 and 59 — the response with TTL 60 is kept (witness). -/
theorem claim7_max_ttl_selection (q1 q2 q3 : Except String DnsResponse)
    (firstResponse : DnsResponse) (rest : List DnsResponse)
    (h : successfulResponses [q1, q2, q3] = firstResponse :: rest) :
    ∃ r, queryDnsWithMaxTTL q1 q2 q3 = .ok r ∧ r ∈ firstResponse :: rest ∧
      (0 < ((firstResponse :: rest).map maxAnswerTTL).foldl Nat.max 0 →
        maxAnswerTTL r = ((firstResponse :: rest).map maxAnswerTTL).foldl Nat.max 0) ∧
      (((firstResponse :: rest).map maxAnswerTTL).foldl Nat.max 0 = 0 →
        r = firstResponse) := by
  unfold queryDnsWithMaxTTL
  rw [h]
  obtain ⟨h1, h2⟩ := selectMaxTTLLoop_spec (firstResponse :: rest) firstResponse 0
  refine ⟨_, rfl, ?_, ?_, ?_⟩
  · rcases h2 with ⟨hb, -⟩ | ⟨-, hmem, -⟩
    · rw [hb]; exact List.mem_cons_self firstResponse rest
    · exact hmem
  · intro hpos
    rcases h2 with ⟨-, hm⟩ | ⟨-, -, hK⟩
    · rw [hm] at h1
      omega
    · rw [hK, h1]
  · intro h0
    rcases h2 with ⟨hb, -⟩ | ⟨hlt, -, -⟩
    · exact hb
    · rw [h1, h0] at hlt
      omega

/-- Claim C7 witness: the amended selection applied to the spec's 58/60/59
example, together with the direct evaluation showing the TTL-60 response is
the one kept. -/
theorem claim7_max_ttl_selection_witness :
    (∃ r, queryDnsWithMaxTTL (.ok respTTL58) (.ok respTTL60) (.ok respTTL59) = .ok r ∧
      r ∈ respTTL58 :: [respTTL60, respTTL59] ∧
      (0 < ((respTTL58 :: [respTTL60, respTTL59]).map maxAnswerTTL).foldl Nat.max 0 →
        maxAnswerTTL r =
          ((respTTL58 :: [respTTL60, respTTL59]).map maxAnswerTTL).foldl Nat.max 0) ∧
      (((respTTL58 :: [respTTL60, respTTL59]).map maxAnswerTTL).foldl Nat.max 0 = 0 →
        r = respTTL58))
    ∧ queryDnsWithMaxTTL (.ok respTTL58) (.ok respTTL60) (.ok respTTL59) = .ok respTTL60 :=
  ⟨claim7_max_ttl_selection (.ok respTTL58) (.ok respTTL60) (.ok respTTL59)
    respTTL58 [respTTL60, respTTL59] rfl, rfl⟩

/-! ### Claim C8 -/

/-- Claim C8: the rate-limiter contract.  `canMakeQuery` answers true iff,
after purging entries older than `windowMs`, fewer than `maxQueries`
timestamps remain; `recordQuery` appends the current time; after
`maxQueries` recorded timestamps all inside the window, `canMakeQuery` is
false; once `windowMs` has elapsed past any recorded timestamp (in
particular the oldest), `canMakeQuery` is true again; `getResetTime` is 0 on
an empty window and otherwise the (clamped) time until the oldest retained
timestamp exits the window. -/
theorem claim8_rate_limiter :
    (∀ (maxQueries : Nat) (windowMs now : Int) (queries : List Int),
      ((canMakeQuery maxQueries windowMs now queries).1 = true ↔
        (cleanupQueries windowMs now queries).length < maxQueries))
    ∧ (∀ (now : Int) (queries : List Int), recordQuery now queries = queries ++ [now])
    ∧ (∀ (maxQueries : Nat) (windowMs now : Int) (queries : List Int),
        queries.length = maxQueries → (∀ t ∈ queries, now - t < windowMs) →
        (canMakeQuery maxQueries windowMs now queries).1 = false)
    ∧ (∀ (maxQueries : Nat) (windowMs now : Int) (queries : List Int) (t : Int),
        queries.length = maxQueries → t ∈ queries → windowMs ≤ now - t →
        (canMakeQuery maxQueries windowMs now queries).1 = true)
    ∧ (∀ (windowMs now : Int), getResetTime windowMs now [] = 0)
    ∧ (∀ (windowMs now oldest : Int) (rest : List Int),
        getResetTime windowMs now (oldest :: rest) = max 0 (oldest + windowMs - now)) := by
  refine ⟨?_, ?_, ?_, ?_, ?_, ?_⟩
  · intro maxQueries windowMs now queries
    simp [canMakeQuery]
  · intro now queries
    rfl
  · intro maxQueries windowMs now queries h1 h2
    have hall : cleanupQueries windowMs now queries = queries :=
      List.filter_eq_self.mpr (fun t ht => by simpa using h2 t ht)
    simp [canMakeQuery, hall, h1]
  · intro maxQueries windowMs now queries t h1 ht hw
    have hlt : (cleanupQueries windowMs now queries).length < queries.length :=
      List.length_filter_lt_length_iff_exists.mpr
        ⟨t, ht, by simpa using Int.not_lt.mpr hw⟩
    have : (cleanupQueries windowMs now queries).length < maxQueries := by omega
    simp [canMakeQuery, this]
  · intro windowMs now
    rfl
  · intro windowMs now oldest rest
    rfl

/-- Claim C8 witness: with `maxQueries = 2`, `windowMs = 100`: two in-window
timestamps reject the next query; once the window has elapsed past the
oldest timestamp, queries are admitted again; `getResetTime` on concrete
states. -/
theorem claim8_rate_limiter_witness :
    (canMakeQuery 2 100 50 [10, 40]).1 = false
    ∧ (canMakeQuery 2 100 150 [10, 140]).1 = true
    ∧ recordQuery 40 [10] = [10, 40]
    ∧ getResetTime 100 150 [] = 0
    ∧ getResetTime 100 150 [110, 140] = max 0 (110 + 100 - 150) :=
  ⟨claim8_rate_limiter.2.2.1 2 100 50 [10, 40] rfl (by decide),
   claim8_rate_limiter.2.2.2.1 2 100 150 [10, 140] 10 rfl (by decide) (by decide),
   claim8_rate_limiter.2.1 40 [10],
   claim8_rate_limiter.2.2.2.2.1 100 150,
   claim8_rate_limiter.2.2.2.2.2 100 150 110 [140]⟩

/-! ### Claim C9 -/

/-- Claim C9 counterexample: on a structurally empty RDAP body the call does
return a best-effort result without throwing, but a missing registrar entity
yields `registrar = "Unknown"` (not `undefined`), and missing
status/nameservers yield `[]` (not `undefined`); only the two event dates
come back `undefined` (modelled as `Json.null`). -/
theorem claim9_counterexample :
    queryRdap "example.com" true true 200 (Json.obj []) =
      { domain := .str "example.com", registrar := .str "Unknown",
        registrationDate := .null, expirationDate := .null, status := .arr [],
        nameservers := .arr [], error := none }
    ∧ Json.str "Unknown" ≠ Json.null
    ∧ Json.arr [] ≠ Json.null :=
  ⟨rfl, fun h => Json.noConfusion h, fun h => Json.noConfusion h⟩

/-- Claim C9 (amended): `queryRdap` never throws and degrades per field, but
absences map to per-field *defaults*, not uniformly to `undefined`: a
missing registrar entity (or formatted name) yields `registrar = "Unknown"`,
missing registration/expiration events yield `undefined` dates, missing
`status` and `nameservers` yield `[]`, a missing `ldhName` yields the
queried domain string; and any thrown parse error is caught and converted
into the structured `error` result. -/
theorem claim9_partial_parse :
    (∀ (domain : String) (httpStatus : Nat) (fields : List (String × Json)),
      fields.find? (fun p => p.1 == "entities") = none →
      fields.find? (fun p => p.1 == "events") = none →
      fields.find? (fun p => p.1 == "ldhName") = none →
      fields.find? (fun p => p.1 == "status") = none →
      fields.find? (fun p => p.1 == "nameservers") = none →
      queryRdap domain true true httpStatus (Json.obj fields) =
        { domain := .str domain, registrar := .str "Unknown",
          registrationDate := .null, expirationDate := .null, status := .arr [],
          nameservers := .arr [], error := none })
    ∧ (∀ (domain : String) (httpStatus : Nat) (data : Json) (e : String),
        parseRdapData domain data = .error e →
        queryRdap domain true true httpStatus data =
          { domain := .null, registrar := .null, registrationDate := .null,
            expirationDate := .null, status := .null, nameservers := .null,
            error := some "Failed to fetch RDAP data" }) := by
  constructor
  · intro domain httpStatus fields h1 h2 h3 h4 h5
    simp [queryRdap, parseRdapData, Json.getE, Json.findOptE, Json.getOpt,
      Json.idxOpt, Json.findE, Json.mapLdhOptE, Json.truthy, jsonFindM,
      Except.map, h1, h2, h3, h4, h5]
  · intro domain httpStatus data e he
    simp [queryRdap, he]

/-- Claim C9 witness: the amended per-field defaults at a concrete body that
has an unrelated key but none of the parsed ones. -/
theorem claim9_partial_parse_witness :
    queryRdap "site.zzz" true true 200 (Json.obj [("objectClassName", .str "domain")]) =
      { domain := .str "site.zzz", registrar := .str "Unknown",
        registrationDate := .null, expirationDate := .null, status := .arr [],
        nameservers := .arr [], error := none } :=
  claim9_partial_parse.1 "site.zzz" 200 [("objectClassName", .str "domain")]
    rfl rfl rfl rfl rfl

/-! ### Claim C10 -/

/-- Claim C10: once the initial existence probe returns a status other than
3 and the root NS query succeeds, `buildZoneHierarchy` never throws: for
*every* environment (hence under rate-limit rejections, timeouts, transport
failures, server failures and candidate NXDOMAINs alike — all modelled as
arbitrary `Except.error` results) it returns a tree rooted at a node with
`zoneName "."`, depth 0, `domains ["."]`, `isDelegated = false` and
`isCname = false` (possibly with no children at all when the TLD lookup
fails). -/
theorem claim10_walk_absorbs_errors (env : DnsEnv) (psl : List String)
    (qd : String) (r : DnsResponse) (rootNS : List String)
    (hProbe : env qd "SOA" = .ok r) (hStatus : r.Status ≠ 3)
    (hRoot : getNameservers env "." = .ok rootNS) :
    ∃ t, buildZoneHierarchy env psl qd = .ok t ∧ t.zoneName = "." ∧ t.depth = 0 ∧
      t.domains = ["."] ∧ t.nameservers = rootNS ∧ t.isDelegated = false ∧
      t.isCname = false := by
  unfold buildZoneHierarchy
  rw [hProbe]
  dsimp only
  rw [if_neg (by simpa using hStatus), hRoot]
  dsimp only
  by_cases hq : (qd == ".") = true
  · rw [if_pos hq]
    exact ⟨_, rfl, rfl, rfl, rfl, rfl, rfl, rfl⟩
  · rw [if_neg hq]
    cases hb : buildBelowRoot env psl qd with
    | ok cs => exact ⟨_, rfl, rfl, rfl, rfl, rfl, rfl, rfl⟩
    | error e => exact ⟨_, rfl, rfl, rfl, rfl, rfl, rfl, rfl⟩

/-- Claim C10 witness: under `envC10` every query except the probe and the
root NS set fails, and the result is the childless root node. -/
theorem claim10_walk_absorbs_errors_witness :
    ∃ t, buildZoneHierarchy envC10 [] "w.x" = .ok t ∧ t.zoneName = "." ∧
      t.depth = 0 ∧ t.domains = ["."] ∧ t.nameservers = ["a.root-servers.net."] ∧
      t.isDelegated = false ∧ t.isCname = false :=
  claim10_walk_absorbs_errors envC10 [] "w.x" { Status := 0 }
    ["a.root-servers.net."] rfl (by decide) rfl

end DnsZones

